import Mathlib

/-!
Verification of the SSH-monitor rate limiter (`main.go`).

The embedding below translates the Go source:
* `getSubnet` — grouping function (`strings.Split` on the one-character
  separator becomes `splitOnChar`, with Go's semantics; `strings.Join`
  becomes `String.intercalate`).
* `SubnetTracker` with operations `isBlocked`, `trackAttempt`, `cleanup`.
  Go maps with zero-default reads become total functions with default
  `0` / `false`; `time.Time` / `time.Duration` become `Int` nanoseconds
  (`time.Minute = 60e9 ns`).  `trackAttempt` returns the successor state
  together with the block-alert message it emits (if any); in Go the
  alert is posted and logged inside the function.
* `extractIP` / `extractUsername` — the ordered regex strategies of the
  source, implemented as leftmost-first scanners with the same pattern
  semantics (`\d{1,3}` with backtracking against a following literal,
  greedy `\s+`, lazy `.*?` as a shortest-first scan).  Input lines are
  newline-free, as delivered by the line scanner.
* `processLine` — one iteration of the main loop: raw log, "ssh"
  pre-filter (case-insensitive), address extraction, blocked check,
  event classification on the literal `"Accepted"`, attempt tracking for
  non-accepted events, and the trailing `cleanup` call.  The geolocation
  lookup is an external HTTP collaborator and enters as a parameter
  `geo : String → String`.
* A lock/field-access trace model of the three tracker operations, read
  off the statement order of the source, for the locking-discipline
  claims.
-/

namespace BetterMonitor

/-! ## Character classes of the source's regex patterns -/

/-- the regex class `\s` (RE2): space, tab, newline, form feed, carriage return. -/
def isSpaceChar (c : Char) : Bool :=
  c = ' ' || c = '\t' || c = '\n' || c = '\x0c' || c = '\r'

/-- the regex class `\w`: ASCII letters, digits and underscore. -/
def isWordChar (c : Char) : Bool :=
  c.isDigit || ('a' ≤ c && c ≤ 'z') || ('A' ≤ c && c ≤ 'Z') || c = '_'

/-! ## Pattern building blocks -/

/-- Match a literal at the current position, returning the rest. -/
def stripLit (lit cs : List Char) : Option (List Char) :=
  if lit.isPrefixOf cs then some (cs.drop lit.length) else none

/-- `\s+`: at least one whitespace character, consumed greedily.  In every
pattern of the source the next atom cannot match whitespace, so the greedy
consumption is exact. -/
def ws1 (cs : List Char) : Option (List Char) :=
  let sp := cs.takeWhile isSpaceChar
  if sp.length ≥ 1 then some (cs.dropWhile isSpaceChar) else none

/-- `\d{1,3}\.`: a digit run of length 1–3 followed by a literal dot.  A
longer run cannot match because backtracking still leaves a digit where
the dot is required. -/
def matchOctetDot (cs : List Char) : Option (List Char × List Char) :=
  let ds := cs.takeWhile Char.isDigit
  let rest := cs.dropWhile Char.isDigit
  if 1 ≤ ds.length ∧ ds.length ≤ 3 then
    match rest with
    | '.' :: r => some (ds, r)
    | _ => none
  else none

/-- `\d{1,3}` at the end of the capture group (nothing after it in the
pattern): greedily takes up to three digits of the run. -/
def matchLastOctet (cs : List Char) : Option (List Char × List Char) :=
  let ds := cs.takeWhile Char.isDigit
  let rest := cs.dropWhile Char.isDigit
  if 1 ≤ ds.length then some (ds.take 3, ds.drop 3 ++ rest) else none

/-- `\d{1,3}` followed by a non-digit atom (`\s` in the port pattern): the
whole run must have length 1–3. -/
def matchOctetFull (cs : List Char) : Option (List Char × List Char) :=
  let ds := cs.takeWhile Char.isDigit
  let rest := cs.dropWhile Char.isDigit
  if 1 ≤ ds.length ∧ ds.length ≤ 3 then some (ds, rest) else none

/-- `(\d{1,3}\.\d{1,3}\.\d{1,3}\.\d{1,3})` at a fixed position (capture ends
the pattern). -/
def matchIPAt (cs : List Char) : Option (List Char × List Char) := do
  let (a, r1) ← matchOctetDot cs
  let (b, r2) ← matchOctetDot r1
  let (c, r3) ← matchOctetDot r2
  let (d, r4) ← matchLastOctet r3
  pure (a ++ '.' :: (b ++ '.' :: (c ++ '.' :: d)), r4)

/-- Leftmost-first scan: try the matcher at every start position, from the
left, first success wins — the match semantics of Go's regexp engine. -/
def scanFirst (f : List Char → Option (List Char)) : List Char → Option (List Char)
  | [] => f []
  | c :: rest =>
    match f (c :: rest) with
    | some r => some r
    | none => scanFirst f rest

/-- pattern `from\s+(\d{1,3}\.\d{1,3}\.\d{1,3}\.\d{1,3})` at a position. -/
def matchFromIP (cs : List Char) : Option (List Char) := do
  let r1 ← stripLit "from".data cs
  let r2 ← ws1 r1
  let (ip, _) ← matchIPAt r2
  pure ip

/-- pattern `(\d{1,3}\.\d{1,3}\.\d{1,3}\.\d{1,3})\s+port` at a position. -/
def matchIPPortCap (cs : List Char) : Option (List Char) := do
  let (a, r1) ← matchOctetDot cs
  let (b, r2) ← matchOctetDot r1
  let (c, r3) ← matchOctetDot r2
  let (d, r4) ← matchOctetFull r3
  let r5 ← ws1 r4
  let _ ← stripLit "port".data r5
  pure (a ++ '.' :: (b ++ '.' :: (c ++ '.' :: d)))

/-- pattern `for\s+(\d{1,3}\.\d{1,3}\.\d{1,3}\.\d{1,3})` at a position. -/
def matchForIP (cs : List Char) : Option (List Char) := do
  let r1 ← stripLit "for".data cs
  let r2 ← ws1 r1
  let (ip, _) ← matchIPAt r2
  pure ip

/-- pattern `user.*?(\d{1,3}\.\d{1,3}\.\d{1,3}\.\d{1,3})` at a position: the
lazy `.*?` takes the first position after `user` where the capture matches. -/
def matchUserIP (cs : List Char) : Option (List Char) := do
  let r1 ← stripLit "user".data cs
  scanFirst (fun c => (matchIPAt c).map Prod.fst) r1

/-- `extractIP` from the source: the four patterns tried in order, first
pattern with a match wins; empty string when none matches. -/
def extractIP (line : String) : String :=
  let cs := line.data
  match scanFirst matchFromIP cs with
  | some ip => String.mk ip
  | none =>
  match scanFirst matchIPPortCap cs with
  | some ip => String.mk ip
  | none =>
  match scanFirst matchForIP cs with
  | some ip => String.mk ip
  | none =>
  match scanFirst matchUserIP cs with
  | some ip => String.mk ip
  | none => ""

/-- `(\w+)` capture: a non-empty word-character run, taken greedily. -/
def wordCapture (cs : List Char) : Option (List Char) :=
  let w := cs.takeWhile isWordChar
  if w.length ≥ 1 then some w else none

/-- pattern `for\s+user\s+(\w+)` at a position. -/
def matchForUserName (cs : List Char) : Option (List Char) := do
  let r1 ← stripLit "for".data cs
  let r2 ← ws1 r1
  let r3 ← stripLit "user".data r2
  let r4 ← ws1 r3
  wordCapture r4

/-- pattern `user\s+(\w+)` at a position. -/
def matchUserName (cs : List Char) : Option (List Char) := do
  let r1 ← stripLit "user".data cs
  let r2 ← ws1 r1
  wordCapture r2

/-- pattern `for\s+(\w+)` at a position. -/
def matchForName (cs : List Char) : Option (List Char) := do
  let r1 ← stripLit "for".data cs
  let r2 ← ws1 r1
  wordCapture r2

/-- `extractUsername` from the source: three patterns in order, default
`"unknown"`. -/
def extractUsername (line : String) : String :=
  let cs := line.data
  match scanFirst matchForUserName cs with
  | some w => String.mk w
  | none =>
  match scanFirst matchUserName cs with
  | some w => String.mk w
  | none =>
  match scanFirst matchForName cs with
  | some w => String.mk w
  | none => "unknown"

/-- `strings.Contains`: the needle occurs as a contiguous substring. -/
def containsSub (needle : List Char) : List Char → Bool
  | [] => needle.isEmpty
  | c :: t => needle.isPrefixOf (c :: t) || containsSub needle t

/-- `strings.Contains` on strings. -/
def strContains (s sub : String) : Bool := containsSub sub.data s.data

/-- `strings.ToLower` restricted to what the pipeline needs: ASCII case
folding, character by character (the pre-filter needle `"ssh"` is ASCII). -/
def toLowerStr (s : String) : String := String.mk (s.data.map Char.toLower)

/-! ## Grouping function -/

/-- `strings.Split` for a one-character separator (the only use in the
source): split at every occurrence of the separator; splitting the empty
string yields one empty component, as in Go. -/
def splitOnChar (sep : Char) : List Char → List (List Char)
  | [] => [[]]
  | c :: rest =>
    let r := splitOnChar sep rest
    if c = sep then [] :: r
    else
      match r with
      | [] => [[c]]
      | h :: t => (c :: h) :: t

/-- the dot-separated components of an address, per `strings.Split(ip, ".")`. -/
def splitDots (ip : String) : List String :=
  (splitOnChar '.' ip.data).map String.mk

/-- `getSubnet` from the source: split on dots; anything that is not
exactly four components is returned unchanged; otherwise the first three
components joined by dots plus the fixed `".0/24"` suffix. -/
def getSubnet (ip : String) : String :=
  let parts := splitDots ip
  if parts.length ≠ 4 then ip
  else String.intercalate "." (parts.take 3) ++ ".0/24"

/-! ## Tracker state and operations -/

/-- `SubnetTracker` from the source.  Go map reads default to `0` /
`false`, so the maps become total functions; `lastReset` is a timestamp in
nanoseconds. -/
structure SubnetTracker where
  attempts : String → Nat
  blacklist : String → Bool
  lastReset : Int

/-- `NewTracker`: empty maps, `lastReset` set to the construction time. -/
def NewTracker (now : Int) : SubnetTracker :=
  { attempts := fun _ => 0, blacklist := fun _ => false, lastReset := now }

/-- `isBlocked`: read-only membership test. -/
def isBlocked (t : SubnetTracker) (subnet : String) : Bool :=
  t.blacklist subnet

/-- the block message formatted by `trackAttempt`. -/
def blockMsg (subnet : String) (count : Nat) : String :=
  "🚫 Subnet `" ++ subnet ++ "` blocked > " ++ toString count ++
    " attempts in the last minute"

/-- `trackAttempt`: no-op on a blacklisted subnet; otherwise increment the
counter and, when the post-increment count strictly exceeds 5, blacklist
the subnet and emit the block alert (returned as `some msg`). -/
def trackAttempt (t : SubnetTracker) (subnet : String) :
    SubnetTracker × Option String :=
  if t.blacklist subnet then (t, none)
  else
    let n := t.attempts subnet + 1
    let t1 : SubnetTracker :=
      { t with attempts := fun k => if k = subnet then n else t.attempts k }
    if 5 < n then
      ({ t1 with blacklist := fun k => if k = subnet then true else t.blacklist k },
       some (blockMsg subnet n))
    else (t1, none)

/-- `time.Minute` in nanoseconds. -/
def timeMinute : Int := 60000000000

/-- `cleanup`: return unchanged while less than a minute has elapsed since
`lastReset`; otherwise clear all counters and set `lastReset` to `now`. -/
def cleanup (t : SubnetTracker) (now : Int) : SubnetTracker :=
  if now - t.lastReset < timeMinute then t
  else { t with attempts := fun _ => 0, lastReset := now }

/-! ## Event pipeline (one iteration of the main loop) -/

/-- the successful-login event message. -/
def successMsg (ip location username : String) : String :=
  "✅ Successful login from " ++ ip ++ " (" ++ location ++ ") as \x27" ++
    username ++ "\x27"

/-- the other-SSH-activity event message. -/
def activityMsg (ip location subnet : String) : String :=
  "🔍 SSH activity from " ++ ip ++ " (" ++ location ++ ") Subnet: " ++ subnet

/-- One iteration of the main loop on one input line.  Returns the tracker
after the iteration, the log records written, and the alert messages
posted to the webhook.  `geo` stands for the external `getGeoIP`
collaborator; `now` is the time observed by `cleanup`. -/
def processLine (geo : String → String) (t : SubnetTracker) (now : Int)
    (line : String) : SubnetTracker × List String × List String :=
  let rawLog := "Raw: " ++ line
  if !(strContains (toLowerStr line) "ssh") then (t, [rawLog], [])
  else
    let ip := extractIP line
    if ip = "" then (t, [rawLog], [])
    else
      let subnet := getSubnet ip
      if !(isBlocked t subnet) then
        let location := geo ip
        let username := extractUsername line
        let event :=
          if strContains line "Accepted" then successMsg ip location username
          else activityMsg ip location subnet
        if strContains line "Accepted" then
          (cleanup t now, [rawLog, "Event: " ++ event], [event])
        else
          let r := trackAttempt t subnet
          match r.2 with
          | some m =>
            (cleanup r.1 now, [rawLog, "Event: " ++ event, "Block: " ++ m],
             [event, m])
          | none => (cleanup r.1 now, [rawLog, "Event: " ++ event], [event])
      else
        (cleanup t now,
         [rawLog, "Blocked attempt from " ++ ip ++ " (subnet " ++ subnet ++ ")"],
         [])

/-! ## Iterated attempts within one window -/

/-- `n` consecutive `trackAttempt` calls on the same subnet with no window
reset in between (one window); the second component counts the block
alerts emitted. -/
def runTrack (t : SubnetTracker) (s : String) : Nat → SubnetTracker × Nat
  | 0 => (t, 0)
  | n + 1 =>
    let r := runTrack t s n
    let st := trackAttempt r.1 s
    (st.1, r.2 + if st.2.isSome then 1 else 0)

/-! ## Lock/field-access traces of the tracker operations -/

/-- the three fields of the tracker state triple. -/
inductive TrackerField where
  | attempts
  | blacklist
  | lastReset
deriving DecidableEq

/-- an atomic action on the shared tracker: lock, unlock, or a field
access. -/
inductive MemAccess where
  | lock
  | unlock
  | readF : TrackerField → MemAccess
  | writeF : TrackerField → MemAccess
deriving DecidableEq

/-- access trace of `isBlocked`: lock, read `blacklist`, deferred unlock. -/
def isBlockedTrace : List MemAccess :=
  [.lock, .readF .blacklist, .unlock]

/-- access trace of `trackAttempt`, in the statement order of the source:
lock; read `blacklist` (early return unlocks); read+write `attempts` for
the increment; read `attempts` for the threshold test; in the block branch
write `blacklist` and read `attempts` twice for the two messages; deferred
unlock. -/
def trackAttemptTrace (t : SubnetTracker) (subnet : String) : List MemAccess :=
  .lock :: .readF .blacklist ::
    (if t.blacklist subnet then [.unlock]
     else .readF .attempts :: .writeF .attempts :: .readF .attempts ::
       (if 5 < t.attempts subnet + 1 then
          [.writeF .blacklist, .readF .attempts, .readF .attempts, .unlock]
        else [.unlock]))

/-- access trace of `cleanup`, in the statement order of the source: the
elapsed-time check reads `lastReset` BEFORE the lock is taken; only when
the window has elapsed does the function lock, write `attempts` and
`lastReset`, and unlock. -/
def cleanupTrace (t : SubnetTracker) (now : Int) : List MemAccess :=
  .readF .lastReset ::
    (if now - t.lastReset < timeMinute then []
     else [.lock, .writeF .attempts, .writeF .lastReset, .unlock])

/-- every field access in the trace happens while the lock is held (the
boolean argument is the lock-held flag at entry). -/
def lockedAccesses : Bool → List MemAccess → Bool
  | _, [] => true
  | _, .lock :: r => lockedAccesses true r
  | _, .unlock :: r => lockedAccesses false r
  | held, .readF _ :: r => held && lockedAccesses held r
  | held, .writeF _ :: r => held && lockedAccesses held r

/-- field accesses followed by a final unlock, with no lock or unlock in
between. -/
def bodyThenUnlock : List MemAccess → Bool
  | [.unlock] => true
  | .readF _ :: r => bodyThenUnlock r
  | .writeF _ :: r => bodyThenUnlock r
  | _ => false

/-- the trace is one single critical section: a lock, then field accesses
only, then one final unlock. -/
def oneCriticalSection : List MemAccess → Bool
  | .lock :: r => bodyThenUnlock r
  | _ => false

/-! ## Helper lemmas -/

lemma getSubnet_four (ip : String) (h : (splitDots ip).length = 4) :
    getSubnet ip = String.intercalate "." ((splitDots ip).take 3) ++ ".0/24" := by
  simp [getSubnet, h]

lemma getSubnet_not_four (ip : String) (h : (splitDots ip).length ≠ 4) :
    getSubnet ip = ip := by
  simp [getSubnet, h]

lemma cleanup_lt (t : SubnetTracker) (now : Int)
    (h : now - t.lastReset < timeMinute) : cleanup t now = t := by
  simp [cleanup, h]

lemma cleanup_ge (t : SubnetTracker) (now : Int)
    (h : timeMinute ≤ now - t.lastReset) :
    cleanup t now =
      { attempts := fun _ => 0, blacklist := t.blacklist, lastReset := now } := by
  simp [cleanup, not_lt.mpr h]

lemma cleanup_blacklist (t : SubnetTracker) (now : Int) :
    (cleanup t now).blacklist = t.blacklist := by
  by_cases h : now - t.lastReset < timeMinute
  · rw [cleanup_lt t now h]
  · rw [cleanup_ge t now (not_lt.mp h)]

lemma cleanup_attempts_le (t : SubnetTracker) (now : Int) (k : String) :
    (cleanup t now).attempts k ≤ t.attempts k := by
  by_cases h : now - t.lastReset < timeMinute
  · rw [cleanup_lt t now h]
  · rw [cleanup_ge t now (not_lt.mp h)]
    exact Nat.zero_le _

/-! ## Claims about the grouping function -/

/-- C8: `getSubnet` is pure and deterministic: an address with exactly four
dot-separated components maps to its first three components joined by dots
plus the fixed suffix (so the result depends only on those three
components), and any other address is returned unchanged. -/
theorem c8_grouping_contract (a : String) :
    ((splitDots a).length = 4 →
      getSubnet a = String.intercalate "." ((splitDots a).take 3) ++ ".0/24")
    ∧ ((splitDots a).length ≠ 4 → getSubnet a = a)
    ∧ ∀ b : String, (splitDots a).length = 4 → (splitDots b).length = 4 →
        (splitDots a).take 3 = (splitDots b).take 3 →
        getSubnet a = getSubnet b := by
  refine ⟨getSubnet_four a, getSubnet_not_four a, ?_⟩
  intro b h4a h4b h3
  rw [getSubnet_four a h4a, getSubnet_four b h4b, h3]

/-- Witness for C8 at the concrete addresses `10.0.0.1` and `10.0.0.7`. -/
theorem c8_grouping_contract_witness :
    ((splitDots "10.0.0.1").length = 4
      ∧ (splitDots "10.0.0.7").length = 4
      ∧ (splitDots "10.0.0.1").take 3 = (splitDots "10.0.0.7").take 3)
    ∧ getSubnet "10.0.0.1" = getSubnet "10.0.0.7" :=
  ⟨⟨by decide, by decide, by decide⟩,
   (c8_grouping_contract "10.0.0.1").2.2 "10.0.0.7" (by decide) (by decide)
     (by decide)⟩

/-- C10: `getSubnet` performs no numeric or range validation: any string
with exactly four dot-separated components — numeric or not, in range or
not — is mapped to its first three components plus the `".0/24"` suffix. -/
theorem c10_group_no_octet_checks (ip : String)
    (h : (splitDots ip).length = 4) :
    getSubnet ip =
      String.intercalate "." ((splitDots ip).take 3) ++ ".0/24" :=
  getSubnet_four ip h

/-- Witness for C10 at the non-numeric address `a.b.c.d` (and, by direct
evaluation, the out-of-range `999.1.2.3`). -/
theorem c10_group_no_octet_checks_witness :
    ((splitDots "a.b.c.d").length = 4)
    ∧ getSubnet "a.b.c.d" =
        String.intercalate "." ((splitDots "a.b.c.d").take 3) ++ ".0/24"
    ∧ getSubnet "999.1.2.3" = "999.1.2.0/24" :=
  ⟨by decide, c10_group_no_octet_checks "a.b.c.d" (by decide), by decide⟩

/-! ## Claims about `cleanup` -/

/-- tracker with a nonzero counter, used to exhibit the window-boundary
behaviour of `cleanup`. -/
def tC4 : SubnetTracker :=
  { attempts := fun k => if k = "x" then 3 else 0
    blacklist := fun _ => false
    lastReset := 0 }

/-- C4 counterexample: at `now = lastReset + timeMinute` the elapsed time
equals one minute — it does not strictly exceed it — yet `cleanup` resets
the counters and advances `lastReset`, contradicting the claim that the
state is left unchanged whenever the elapsed time does not exceed one
minute. -/
theorem c4_boundary_counterexample :
    ¬ (timeMinute - tC4.lastReset > timeMinute)
    ∧ tC4.attempts "x" = 3
    ∧ (cleanup tC4 timeMinute).attempts "x" = 0
    ∧ (cleanup tC4 timeMinute).lastReset = timeMinute
    ∧ tC4.lastReset ≠ timeMinute := by
  refine ⟨by decide, by decide, ?_, ?_, by decide⟩
  · rw [cleanup_ge tC4 timeMinute (by decide)]
  · rw [cleanup_ge tC4 timeMinute (by decide)]

/-- C4 amended: `cleanup` resets the attempts map to empty and sets
`lastReset` to `now` (not `lastReset` plus a fixed step) exactly when the
elapsed time since `lastReset` is at least one minute (it fires already at
exactly one minute); when strictly less than one minute has elapsed it
leaves all three state fields unchanged. -/
theorem c4_window_reset_amended (t : SubnetTracker) (now : Int) :
    (now - t.lastReset < timeMinute → cleanup t now = t)
    ∧ (timeMinute ≤ now - t.lastReset →
        (cleanup t now).lastReset = now
        ∧ (∀ k, (cleanup t now).attempts k = 0)
        ∧ (cleanup t now).blacklist = t.blacklist) := by
  refine ⟨cleanup_lt t now, fun h => ?_⟩
  rw [cleanup_ge t now h]
  exact ⟨rfl, fun _ => rfl, rfl⟩

/-- Witness for the amended C4: below the boundary nothing changes, at the
boundary the reset fires. -/
theorem c4_window_reset_amended_witness :
    ((1 : Int) - tC4.lastReset < timeMinute ∧ cleanup tC4 1 = tC4)
    ∧ (timeMinute ≤ timeMinute - tC4.lastReset
        ∧ (cleanup tC4 timeMinute).lastReset = timeMinute) :=
  ⟨⟨by decide, (c4_window_reset_amended tC4 1).1 (by decide)⟩,
   ⟨by decide, ((c4_window_reset_amended tC4 timeMinute).2 (by decide)).1⟩⟩

/-! ## Claim C3: blocked membership is monotone; resets spare the block set -/

/-- C3: a group key in the blocked set stays in it across `isBlocked`
(a pure read), `trackAttempt` (on any subnet), and `cleanup`; a window
reset clears every attempt counter to zero while leaving blocked
membership untouched. -/
theorem c3_blocked_is_permanent (t : SubnetTracker) (k sub : String)
    (now : Int) (hk : t.blacklist k = true) :
    isBlocked t k = t.blacklist k
    ∧ (trackAttempt t sub).1.blacklist k = true
    ∧ (cleanup t now).blacklist k = t.blacklist k
    ∧ (timeMinute ≤ now - t.lastReset → ∀ j, (cleanup t now).attempts j = 0) := by
  refine ⟨rfl, ?_, ?_, fun h j => ?_⟩
  · unfold trackAttempt
    by_cases hb : t.blacklist sub
    · simp [hb, hk]
    · simp [hb]
      by_cases h5 : 5 < t.attempts sub + 1
      · simp [h5]
        by_cases hks : k = sub <;> simp [hks, hk]
      · simp [h5, hk]
  · rw [cleanup_blacklist]
  · rw [cleanup_ge t now h]

/-- tracker with the subnet `a` already blocked. -/
def tBlockedA : SubnetTracker :=
  { attempts := fun _ => 0
    blacklist := fun k => k == "a"
    lastReset := 0 }

/-- Witness for C3: with `a` blocked, a `trackAttempt` on `b` and a
window reset both keep `a` blocked, and the reset zeroes the counters. -/
theorem c3_blocked_is_permanent_witness :
    tBlockedA.blacklist "a" = true
    ∧ (trackAttempt tBlockedA "b").1.blacklist "a" = true
    ∧ (cleanup tBlockedA timeMinute).blacklist "a" = tBlockedA.blacklist "a"
    ∧ (cleanup tBlockedA timeMinute).attempts "b" = 0 :=
  ⟨by decide,
   (c3_blocked_is_permanent tBlockedA "a" "b" timeMinute (by decide)).2.1,
   (c3_blocked_is_permanent tBlockedA "a" "b" timeMinute (by decide)).2.2.1,
   (c3_blocked_is_permanent tBlockedA "a" "b" timeMinute (by decide)).2.2.2
     (by decide) "b"⟩

/-! ## Claim C1: the unique block transition -/

lemma trackAttempt_blocked (t : SubnetTracker) (s : String)
    (hb : t.blacklist s = true) : trackAttempt t s = (t, none) := by
  simp [trackAttempt, hb]

lemma trackAttempt_cnt (t : SubnetTracker) (s : String)
    (hb : t.blacklist s = false) :
    (trackAttempt t s).1.attempts s = t.attempts s + 1 := by
  by_cases h5 : 5 < t.attempts s + 1 <;> simp [trackAttempt, hb, h5]

lemma trackAttempt_bl (t : SubnetTracker) (s : String)
    (hb : t.blacklist s = false) :
    (trackAttempt t s).1.blacklist s = decide (5 < t.attempts s + 1) := by
  by_cases h5 : 5 < t.attempts s + 1 <;> simp [trackAttempt, hb, h5]

lemma trackAttempt_alert (t : SubnetTracker) (s : String)
    (hb : t.blacklist s = false) :
    (trackAttempt t s).2.isSome = decide (5 < t.attempts s + 1) := by
  by_cases h5 : 5 < t.attempts s + 1 <;> simp [trackAttempt, hb, h5]

lemma runTrack_succ (t : SubnetTracker) (s : String) (n : Nat) :
    runTrack t s (n + 1) =
      ((trackAttempt (runTrack t s n).1 s).1,
       (runTrack t s n).2 +
         if (trackAttempt (runTrack t s n).1 s).2.isSome then 1 else 0) := rfl

lemma runTrack_invariant (t : SubnetTracker) (s : String)
    (hb : t.blacklist s = false) (ha : t.attempts s ≤ 5) :
    ∀ n : Nat,
      (t.attempts s + n ≤ 5
        ∧ (runTrack t s n).1.attempts s = t.attempts s + n
        ∧ (runTrack t s n).1.blacklist s = false
        ∧ (runTrack t s n).2 = 0)
      ∨ (6 ≤ t.attempts s + n
        ∧ (runTrack t s n).1.attempts s = 6
        ∧ (runTrack t s n).1.blacklist s = true
        ∧ (runTrack t s n).2 = 1) := by
  intro n
  induction n with
  | zero => exact Or.inl ⟨by omega, by simp [runTrack], by simp [runTrack, hb], rfl⟩
  | succ n ih =>
    rcases ih with ⟨hle, h1, h2, h3⟩ | ⟨h6, h1, h2, h3⟩
    · by_cases h5 : t.attempts s + n = 5
      · refine Or.inr ⟨by omega, ?_, ?_, ?_⟩
        · rw [runTrack_succ]
          simp only [trackAttempt_cnt _ _ h2, h1]
          omega
        · rw [runTrack_succ]
          simp only [trackAttempt_bl _ _ h2, h1]
          exact decide_eq_true (by omega)
        · rw [runTrack_succ]
          simp only [trackAttempt_alert _ _ h2, h1, h3]
          rw [decide_eq_true (show 5 < t.attempts s + n + 1 by omega)]
          simp
      · refine Or.inl ⟨by omega, ?_, ?_, ?_⟩
        · rw [runTrack_succ]
          simp only [trackAttempt_cnt _ _ h2, h1]
          omega
        · rw [runTrack_succ]
          simp only [trackAttempt_bl _ _ h2, h1]
          exact decide_eq_false (by omega)
        · rw [runTrack_succ]
          simp only [trackAttempt_alert _ _ h2, h1, h3]
          rw [decide_eq_false (show ¬ 5 < t.attempts s + n + 1 by omega)]
          simp
    · have hstep : trackAttempt (runTrack t s n).1 s = ((runTrack t s n).1, none) :=
        trackAttempt_blocked _ _ h2
      refine Or.inr ⟨by omega, ?_, ?_, ?_⟩
      · rw [runTrack_succ, hstep]
        exact h1
      · rw [runTrack_succ, hstep]
        exact h2
      · rw [runTrack_succ, hstep]
        simp [h3]

/-- C1: starting from a state where the group is not blocked (and its
counter, as in every reachable state, is at most 5), across any number of
consecutive `trackAttempt` calls within one window: the blocked flag is
set exactly from the call whose post-increment counter first exceeds 5,
the total number of block alerts emitted is one once that call has
happened and zero before, and the k-th call emits the alert exactly when
its post-increment counter equals 6 — no earlier call (count ≤ 5) and no
later call blocks or alerts. -/
theorem c1_unique_block_transition (t : SubnetTracker) (s : String)
    (hb : t.blacklist s = false) (ha : t.attempts s ≤ 5) (n : Nat) :
    (runTrack t s n).2 = (if 6 ≤ t.attempts s + n then 1 else 0)
    ∧ (runTrack t s n).1.blacklist s = decide (6 ≤ t.attempts s + n)
    ∧ ∀ k : Nat, (trackAttempt (runTrack t s k).1 s).2.isSome =
        decide (t.attempts s + k + 1 = 6) := by
  have main : (runTrack t s n).2 = (if 6 ≤ t.attempts s + n then 1 else 0)
      ∧ (runTrack t s n).1.blacklist s = decide (6 ≤ t.attempts s + n) := by
    rcases runTrack_invariant t s hb ha n with ⟨hle, -, h2, h3⟩ | ⟨h6, -, h2, h3⟩
    · rw [h3, h2, if_neg (by omega), decide_eq_false (by omega)]
      exact ⟨rfl, rfl⟩
    · rw [h3, h2, if_pos h6, decide_eq_true h6]
      exact ⟨rfl, rfl⟩
  refine ⟨main.1, main.2, fun k => ?_⟩
  rcases runTrack_invariant t s hb ha k with ⟨hle, k1, k2, -⟩ | ⟨h6, -, k2, -⟩
  · rw [trackAttempt_alert _ _ k2, k1]
    rcases Nat.eq_or_lt_of_le hle with h5 | h5
    · rw [decide_eq_true (by omega), decide_eq_true (by omega)]
    · rw [decide_eq_false (by omega), decide_eq_false (by omega)]
  · rw [trackAttempt_blocked _ _ k2]
    rw [decide_eq_false (by omega)]
    rfl

/-- Witness for C1: from a fresh tracker, six consecutive failed attempts
on one subnet emit exactly one block alert, set the blocked flag, and the
alert is emitted on the sixth call (post-increment counter 6), not the
fifth. -/
theorem c1_unique_block_transition_witness :
    ((NewTracker 0).blacklist "10.0.0.0/24" = false
      ∧ (NewTracker 0).attempts "10.0.0.0/24" ≤ 5)
    ∧ (runTrack (NewTracker 0) "10.0.0.0/24" 6).2 =
        (if 6 ≤ (NewTracker 0).attempts "10.0.0.0/24" + 6 then 1 else 0)
    ∧ (runTrack (NewTracker 0) "10.0.0.0/24" 6).1.blacklist "10.0.0.0/24" =
        decide (6 ≤ (NewTracker 0).attempts "10.0.0.0/24" + 6)
    ∧ (trackAttempt (runTrack (NewTracker 0) "10.0.0.0/24" 5).1
        "10.0.0.0/24").2.isSome =
        decide ((NewTracker 0).attempts "10.0.0.0/24" + 5 + 1 = 6)
    ∧ (trackAttempt (runTrack (NewTracker 0) "10.0.0.0/24" 4).1
        "10.0.0.0/24").2.isSome =
        decide ((NewTracker 0).attempts "10.0.0.0/24" + 4 + 1 = 6) :=
  ⟨⟨rfl, by decide⟩,
   (c1_unique_block_transition (NewTracker 0) "10.0.0.0/24" rfl (by decide) 6).1,
   (c1_unique_block_transition (NewTracker 0) "10.0.0.0/24" rfl (by decide) 6).2.1,
   (c1_unique_block_transition (NewTracker 0) "10.0.0.0/24" rfl (by decide) 6).2.2 5,
   (c1_unique_block_transition (NewTracker 0) "10.0.0.0/24" rfl (by decide) 6).2.2 4⟩

/-! ## Claim C7: locking discipline -/

/-- C7 counterexample: the claim that every access to the state triple
happens under the lock is false — `cleanup` reads `lastReset` for its
elapsed-time check before acquiring the lock, in both the early-return
case and the reset case (concretely on a fresh tracker at `now = 0` and at
`now = timeMinute`). -/
theorem c7_unlocked_read_counterexample :
    lockedAccesses false (cleanupTrace (NewTracker 0) 0) = false
    ∧ cleanupTrace (NewTracker 0) 0 = [.readF .lastReset]
    ∧ lockedAccesses false (cleanupTrace (NewTracker 0) timeMinute) = false := by
  refine ⟨?_, ?_, ?_⟩ <;> decide

/-- C7 amended: `isBlocked` and `trackAttempt` access the state triple
only while holding the single exclusive lock, and each runs as one atomic
critical section — in particular `trackAttempt`'s check-blocked /
increment / check-threshold / conditionally-block sequence; `cleanup`,
however, performs its elapsed-time read of `lastReset` before acquiring
the lock, and only the reset writes happen inside its critical section. -/
theorem c7_locking_amended (t : SubnetTracker) (sub : String) (now : Int) :
    lockedAccesses false isBlockedTrace = true
    ∧ oneCriticalSection isBlockedTrace = true
    ∧ lockedAccesses false (trackAttemptTrace t sub) = true
    ∧ oneCriticalSection (trackAttemptTrace t sub) = true
    ∧ (cleanupTrace t now).head? = some (.readF .lastReset)
    ∧ lockedAccesses false ((cleanupTrace t now).drop 1) = true := by
  refine ⟨by decide, by decide, ?_, ?_, ?_, ?_⟩
  · by_cases hb : t.blacklist sub
    · simp only [trackAttemptTrace, hb, if_true]
      decide
    · by_cases h5 : 5 < t.attempts sub + 1 <;>
        simp only [trackAttemptTrace, hb, h5, if_true, if_false] <;> decide
  · by_cases hb : t.blacklist sub
    · simp only [trackAttemptTrace, hb, if_true]
      decide
    · by_cases h5 : 5 < t.attempts sub + 1 <;>
        simp only [trackAttemptTrace, hb, h5, if_true, if_false] <;> decide
  · rfl
  · by_cases h : now - t.lastReset < timeMinute <;>
      simp only [cleanupTrace, h, if_true, if_false] <;> decide

/-! ## Claim C2: already-blocked groups -/

lemma processLine_blocked (g : String → String) (t : SubnetTracker)
    (now : Int) (line : String)
    (hssh : strContains (toLowerStr line) "ssh" = true)
    (hip : extractIP line ≠ "")
    (hb : t.blacklist (getSubnet (extractIP line)) = true) :
    processLine g t now line =
      (cleanup t now,
       ["Raw: " ++ line,
        "Blocked attempt from " ++ extractIP line ++ " (subnet " ++
          getSubnet (extractIP line) ++ ")"],
       []) := by
  simp [processLine, hssh, hip, isBlocked, hb]

/-- C2: `trackAttempt` on an already-blocked group is a no-op — the
returned state is the input state (counter, blocked set and `lastReset`
all unchanged) and no block alert is emitted; on such a group the
pipeline writes only the raw-line and suppressed-attempt log records,
dispatches no alert, and mutates no counter (when the window has not
elapsed, the tracker after the line is exactly the input tracker). -/
theorem c2_blocked_idempotent (g : String → String) (t : SubnetTracker)
    (now : Int) (line : String)
    (hssh : strContains (toLowerStr line) "ssh" = true)
    (hip : extractIP line ≠ "")
    (hb : t.blacklist (getSubnet (extractIP line)) = true) :
    trackAttempt t (getSubnet (extractIP line)) = (t, none)
    ∧ processLine g t now line =
        (cleanup t now,
         ["Raw: " ++ line,
          "Blocked attempt from " ++ extractIP line ++ " (subnet " ++
            getSubnet (extractIP line) ++ ")"],
         [])
    ∧ (now - t.lastReset < timeMinute → (processLine g t now line).1 = t) := by
  refine ⟨trackAttempt_blocked t _ hb, processLine_blocked g t now line hssh hip hb, ?_⟩
  intro h
  rw [processLine_blocked g t now line hssh hip hb]
  exact cleanup_lt t now h

/-- tracker with the subnet of `1.2.3.4` already blocked. -/
def tC2 : SubnetTracker :=
  { attempts := fun _ => 0
    blacklist := fun k => k == "1.2.3.0/24"
    lastReset := 0 }

/-- Witness for C2 on a concrete failed-login line whose subnet is
blocked. -/
theorem c2_blocked_idempotent_witness :
    (strContains
        (toLowerStr "sshd: Failed password for root from 1.2.3.4 port 22")
        "ssh" = true
      ∧ extractIP "sshd: Failed password for root from 1.2.3.4 port 22" ≠ ""
      ∧ tC2.blacklist
          (getSubnet
            (extractIP "sshd: Failed password for root from 1.2.3.4 port 22"))
          = true)
    ∧ trackAttempt tC2
        (getSubnet
          (extractIP "sshd: Failed password for root from 1.2.3.4 port 22"))
        = (tC2, none)
    ∧ (processLine (fun _ => "Unknown") tC2 0
        "sshd: Failed password for root from 1.2.3.4 port 22").1 = tC2 :=
  ⟨⟨by decide, by decide, by decide⟩,
   (c2_blocked_idempotent (fun _ => "Unknown") tC2 0
      "sshd: Failed password for root from 1.2.3.4 port 22"
      (by decide) (by decide) (by decide)).1,
   (c2_blocked_idempotent (fun _ => "Unknown") tC2 0
      "sshd: Failed password for root from 1.2.3.4 port 22"
      (by decide) (by decide) (by decide)).2.2 (by decide)⟩

/-! ## Claim C5: accepted events never touch the counter -/

lemma processLine_accepted (g : String → String) (t : SubnetTracker)
    (now : Int) (line : String)
    (hssh : strContains (toLowerStr line) "ssh" = true)
    (hip : extractIP line ≠ "")
    (hacc : strContains line "Accepted" = true)
    (hnb : t.blacklist (getSubnet (extractIP line)) = false) :
    processLine g t now line =
      (cleanup t now,
       ["Raw: " ++ line,
        "Event: " ++ successMsg (extractIP line) (g (extractIP line))
          (extractUsername line)],
       [successMsg (extractIP line) (g (extractIP line))
          (extractUsername line)]) := by
  simp [processLine, hssh, hip, isBlocked, hnb, hacc]

/-- C5: a processed event whose line carries the `"Accepted"` marker (on a
group that is not blocked) leaves every attempt counter untouched — the
tracker after the line is exactly `cleanup` of the input tracker, so no
counter ever grows and the blocked set is unchanged — and dispatches
exactly one alert, the success alert, instead of incrementing the
counter. -/
theorem c5_accepted_never_counts (g : String → String) (t : SubnetTracker)
    (now : Int) (line : String)
    (hssh : strContains (toLowerStr line) "ssh" = true)
    (hip : extractIP line ≠ "")
    (hacc : strContains line "Accepted" = true)
    (hnb : t.blacklist (getSubnet (extractIP line)) = false) :
    processLine g t now line =
      (cleanup t now,
       ["Raw: " ++ line,
        "Event: " ++ successMsg (extractIP line) (g (extractIP line))
          (extractUsername line)],
       [successMsg (extractIP line) (g (extractIP line))
          (extractUsername line)])
    ∧ (∀ k, (processLine g t now line).1.attempts k ≤ t.attempts k)
    ∧ ∀ k, (processLine g t now line).1.blacklist k = t.blacklist k := by
  have h := processLine_accepted g t now line hssh hip hacc hnb
  refine ⟨h, fun k => ?_, fun k => ?_⟩
  · rw [h]
    exact cleanup_attempts_le t now k
  · rw [h]
    rw [cleanup_blacklist]

/-- Witness for C5: an accepted login from `1.2.3.4` with the counter of
its subnet already at 5 (one short of the block threshold) leaves that
counter at 5 and yields only the success alert. -/
def tC5 : SubnetTracker :=
  { attempts := fun k => if k = "1.2.3.0/24" then 5 else 0
    blacklist := fun _ => false
    lastReset := 0 }

theorem c5_accepted_never_counts_witness :
    (strContains
        (toLowerStr "sshd: Accepted password for root from 1.2.3.4 port 22")
        "ssh" = true
      ∧ extractIP "sshd: Accepted password for root from 1.2.3.4 port 22" ≠ ""
      ∧ strContains "sshd: Accepted password for root from 1.2.3.4 port 22"
          "Accepted" = true
      ∧ tC5.blacklist
          (getSubnet
            (extractIP "sshd: Accepted password for root from 1.2.3.4 port 22"))
          = false)
    ∧ (processLine (fun _ => "Unknown") tC5 0
        "sshd: Accepted password for root from 1.2.3.4 port 22").1.attempts
        "1.2.3.0/24" ≤ tC5.attempts "1.2.3.0/24" :=
  ⟨⟨by decide, by decide, by decide, by decide⟩,
   (c5_accepted_never_counts (fun _ => "Unknown") tC5 0
      "sshd: Accepted password for root from 1.2.3.4 port 22"
      (by decide) (by decide) (by decide) (by decide)).2.1 "1.2.3.0/24"⟩

/-! ## Claim C9: the success marker is case-sensitive -/

/-- C9: classification tests the exact, case-sensitive substring
`"Accepted"`: a line carrying only the lowercase `"accepted"` marker (and
passing the `"ssh"` pre-filter, which IS case-insensitive) is classified
as other activity — the dispatched event alert is the activity message,
not the success message — and the group's attempt counter is
incremented. -/
theorem c9_accepted_case_sensitive (g : String → String) (t : SubnetTracker)
    (now : Int) (line : String)
    (hssh : strContains (toLowerStr line) "ssh" = true)
    (_hlow : strContains line "accepted" = true)
    (hup : strContains line "Accepted" = false)
    (hip : extractIP line ≠ "")
    (hnb : t.blacklist (getSubnet (extractIP line)) = false) :
    (trackAttempt t (getSubnet (extractIP line))).1.attempts
        (getSubnet (extractIP line))
      = t.attempts (getSubnet (extractIP line)) + 1
    ∧ processLine g t now line =
        (cleanup (trackAttempt t (getSubnet (extractIP line))).1 now,
         ["Raw: " ++ line,
          "Event: " ++ activityMsg (extractIP line) (g (extractIP line))
            (getSubnet (extractIP line))] ++
           (match (trackAttempt t (getSubnet (extractIP line))).2 with
            | some m => ["Block: " ++ m]
            | none => []),
         activityMsg (extractIP line) (g (extractIP line))
            (getSubnet (extractIP line)) ::
           (match (trackAttempt t (getSubnet (extractIP line))).2 with
            | some m => [m]
            | none => [])) := by
  refine ⟨trackAttempt_cnt t _ hnb, ?_⟩
  rcases hr : (trackAttempt t (getSubnet (extractIP line))).2 with - | m <;>
    simp [processLine, hssh, hip, isBlocked, hnb, hup, hr]

/-- Witness for C9: a line with a lowercase `accepted` marker is counted
as a failed attempt — the fresh tracker's counter for the subnet of
`1.2.3.4` moves from 0 to 1. -/
theorem c9_accepted_case_sensitive_witness :
    (strContains
        (toLowerStr "sshd: accepted password for root from 1.2.3.4 port 22")
        "ssh" = true
      ∧ strContains "sshd: accepted password for root from 1.2.3.4 port 22"
          "accepted" = true
      ∧ strContains "sshd: accepted password for root from 1.2.3.4 port 22"
          "Accepted" = false
      ∧ extractIP "sshd: accepted password for root from 1.2.3.4 port 22" ≠ ""
      ∧ (NewTracker 0).blacklist
          (getSubnet
            (extractIP "sshd: accepted password for root from 1.2.3.4 port 22"))
          = false)
    ∧ (trackAttempt (NewTracker 0)
        (getSubnet
          (extractIP "sshd: accepted password for root from 1.2.3.4 port 22"))).1.attempts
        (getSubnet
          (extractIP "sshd: accepted password for root from 1.2.3.4 port 22"))
      = (NewTracker 0).attempts
          (getSubnet
            (extractIP "sshd: accepted password for root from 1.2.3.4 port 22")) + 1 :=
  ⟨⟨by decide, by decide, by decide, by decide, by decide⟩,
   (c9_accepted_case_sensitive (fun _ => "Unknown") (NewTracker 0) 0
      "sshd: accepted password for root from 1.2.3.4 port 22"
      (by decide) (by decide) (by decide) (by decide) (by decide)).1⟩

/-! ## Claim C6: which lines reach the cleanup call -/

/-- tracker with a stale window and a nonzero counter, to observe whether
`cleanup` ran. -/
def tC6 : SubnetTracker :=
  { attempts := fun k => if k = "9.9.9.0/24" then 2 else 0
    blacklist := fun _ => false
    lastReset := 0 }

/-- C6 counterexample: on a line without the `"ssh"` marker — and likewise
on an `"ssh"` line with no extractable address — the loop body `continue`s
before reaching the `cleanup` call: the tracker is returned untouched
(stale `lastReset`, counter still 2) although an actual `cleanup` call at
that instant would have advanced `lastReset` to `now` and cleared the
counter. -/
theorem c6_no_cleanup_counterexample :
    (processLine (fun _ => "Unknown") tC6 timeMinute
        "totally unrelated chatter").1 = tC6
    ∧ (processLine (fun _ => "Unknown") tC6 timeMinute
        "ssh daemon heartbeat").1 = tC6
    ∧ (cleanup tC6 timeMinute).lastReset = timeMinute
    ∧ (cleanup tC6 timeMinute).attempts "9.9.9.0/24" = 0
    ∧ tC6.lastReset ≠ timeMinute
    ∧ tC6.attempts "9.9.9.0/24" = 2 := by
  refine ⟨rfl, rfl, ?_, ?_, by decide, by decide⟩
  · rw [cleanup_ge tC6 timeMinute (by decide)]
  · rw [cleanup_ge tC6 timeMinute (by decide)]

/-- C6 amended: `cleanup` is called at the end of processing exactly
those lines that contain the `"ssh"` marker (case-insensitively) AND
yield an extractable address; a line failing the pre-filter or the
address extraction is skipped before the cleanup call and leaves the
tracker — including the window clock — completely untouched. -/
theorem c6_cleanup_scope_amended (g : String → String) (t : SubnetTracker)
    (now : Int) (line : String) :
    (strContains (toLowerStr line) "ssh" = false →
      processLine g t now line = (t, ["Raw: " ++ line], []))
    ∧ (extractIP line = "" →
      processLine g t now line = (t, ["Raw: " ++ line], []))
    ∧ (strContains (toLowerStr line) "ssh" = true → extractIP line ≠ "" →
      ∃ t1, (processLine g t now line).1 = cleanup t1 now) := by
  refine ⟨fun h => by simp [processLine, h], fun h => ?_, fun hssh hip => ?_⟩
  · by_cases hs : strContains (toLowerStr line) "ssh" <;>
      simp [processLine, hs, h]
  · by_cases hb : t.blacklist (getSubnet (extractIP line))
    · exact ⟨t, by rw [processLine_blocked g t now line hssh hip hb]⟩
    · simp only [Bool.not_eq_true] at hb
      by_cases hacc : strContains line "Accepted"
      · exact ⟨t, by rw [processLine_accepted g t now line hssh hip hacc hb]⟩
      · simp only [Bool.not_eq_true] at hacc
        rcases hr : (trackAttempt t (getSubnet (extractIP line))).2 with - | m
        · exact ⟨(trackAttempt t (getSubnet (extractIP line))).1,
            by simp [processLine, hssh, hip, isBlocked, hb, hacc, hr]⟩
        · exact ⟨(trackAttempt t (getSubnet (extractIP line))).1,
            by simp [processLine, hssh, hip, isBlocked, hb, hacc, hr]⟩

/-- Witness for the amended C6: a line without the marker is a complete
no-op on the tracker, and a relevant line does end in a `cleanup` call. -/
theorem c6_cleanup_scope_amended_witness :
    (strContains (toLowerStr "quiet line") "ssh" = false
      ∧ processLine (fun _ => "Unknown") tC6 5 "quiet line" =
          (tC6, ["Raw: quiet line"], []))
    ∧ (strContains
          (toLowerStr "sshd: Failed password for root from 7.7.7.7 port 22")
          "ssh" = true
        ∧ extractIP "sshd: Failed password for root from 7.7.7.7 port 22" ≠ ""
        ∧ ∃ t1, (processLine (fun _ => "Unknown") tC6 5
            "sshd: Failed password for root from 7.7.7.7 port 22").1 =
              cleanup t1 5) :=
  ⟨⟨by decide,
    (c6_cleanup_scope_amended (fun _ => "Unknown") tC6 5 "quiet line").1
      (by decide)⟩,
   ⟨by decide, by decide,
    (c6_cleanup_scope_amended (fun _ => "Unknown") tC6 5
        "sshd: Failed password for root from 7.7.7.7 port 22").2.2
      (by decide) (by decide)⟩⟩

end BetterMonitor
